import Mathlib

/-
  Verification development for the anomaly_detection_system backend.

  Shallow embedding conventions:
  * Go `float32` values (box coordinates, thresholds, confidences) are
    modelled as exact rationals `ℚ`; none of the verified properties
    depends on floating-point rounding.
  * Go `int`/`int32`/`int64` are modelled as `Int` (no overflow is
    relevant at the scales involved).
  * `time.Time` instants are modelled as rational numbers of seconds;
    `t.After(u)` becomes `t > u` and
    `now.Add(-window * time.Second)` becomes `now - window`.
  * Buffered Go channels are modelled as lists bounded by the channel
    capacity; a non-blocking `select { case ch <- x: default: }` becomes
    the pure `trySend` below.
  * A `(T, error)` return is modelled as `Except String T`
    (`.ok` ↔ `err == nil`).
-/

namespace ADS

/-! ## Configuration (backend/internal/config/config.go) -/

/-- AIConfig, config.go lines 46-51. -/
structure AIConfig where
  confidenceThreshold : ℚ
  entropyThreshold : ℚ
  nmsIoUThreshold : ℚ
  inputSize : Int
  deriving Repr, DecidableEq

/-- FilterConfig, config.go lines 54-59. -/
structure FilterConfig where
  spatialIoUThreshold : ℚ
  timeWindowSeconds : Int
  enableAlertPush : Bool
  autoSaveSample : Bool
  deriving Repr, DecidableEq

/-- Filter section of DefaultConfig, config.go lines 93-98. -/
def defaultFilterConfig : FilterConfig :=
  { spatialIoUThreshold := 1/2
    timeWindowSeconds := 60
    enableAlertPush := true
    autoSaveSample := true }

/-- AI section of DefaultConfig, config.go lines 87-92. -/
def defaultAIConfig : AIConfig :=
  { confidenceThreshold := 1/2
    entropyThreshold := 1/2
    nmsIoUThreshold := 4/5
    inputSize := 640 }

/-! ## Pipeline data model (video.go / grpc.go) -/

/-- Frame, video capture file lines 23-29.  `data` is the JPEG byte
stream (bytes as `Nat`). -/
structure Frame where
  id : Int
  data : List Nat
  timestamp : ℚ
  width : Int
  height : Int
  deriving Repr, DecidableEq

/-- Detection, grpc.go lines 26-35. -/
structure Detection where
  id : Int
  x1 : ℚ
  y1 : ℚ
  x2 : ℚ
  y2 : ℚ
  className : String
  classId : Int
  confidence : ℚ
  entropy : ℚ
  isUncertain : Bool
  deriving Repr, DecidableEq

/-- DetectionResult, grpc.go lines 17-23. -/
structure DetectionResult where
  frameID : Int
  frame : Frame
  detections : List Detection
  inferenceTime : Int
  timestamp : ℚ
  deriving Repr, DecidableEq

/-! ## Alert filter (backend/internal/filter, filter file) -/

/-- ActiveAlert, filter file lines 14-21. -/
structure ActiveAlert where
  id : Int
  centerX : ℚ
  centerY : ℚ
  x1 : ℚ
  y1 : ℚ
  x2 : ℚ
  y2 : ℚ
  timestamp : ℚ
  deriving Repr, DecidableEq

/-- max32, filter file lines 215-220. -/
def max32 (a b : ℚ) : ℚ := if a > b then a else b

/-- min32, filter file lines 222-227. -/
def min32 (a b : ℚ) : ℚ := if a < b then a else b

/-- calculateIoU, filter file lines 139-160. -/
def calculateIoU (x1a y1a x2a y2a x1b y1b x2b y2b : ℚ) : ℚ :=
  let x1 := max32 x1a x1b
  let y1 := max32 y1a y1b
  let x2 := min32 x2a x2b
  let y2 := min32 y2a y2b
  if x2 ≤ x1 ∨ y2 ≤ y1 then 0
  else
    let intersection := (x2 - x1) * (y2 - y1)
    let areaA := (x2a - x1a) * (y2a - y1a)
    let areaB := (x2b - x1b) * (y2b - y1b)
    let union := areaA + areaB - intersection
    if union ≤ 0 then 0 else intersection / union

/-- In-window filter shared by ShouldAlert (lines 97-105) and cleanup
(lines 59-66): keep exactly the entries whose timestamp is strictly
after `now - timeWindowSeconds`. -/
def survivingAlerts (cfg : FilterConfig) (alerts : List ActiveAlert) (now : ℚ) :
    List ActiveAlert :=
  alerts.filter (fun a => a.timestamp > now - (cfg.timeWindowSeconds : ℚ))

/-- cleanup, filter file lines 54-73 (the periodic 10-second sweep body). -/
def cleanup (cfg : FilterConfig) (alerts : List ActiveAlert) (now : ℚ) :
    List ActiveAlert :=
  survivingAlerts cfg alerts now

/-- The ActiveAlert appended by ShouldAlert, filter file lines 93-95 and
121-130 (center of the box plus the box itself, stamped `now`). -/
def newActiveAlert (d : Detection) (now : ℚ) : ActiveAlert :=
  { id := d.id
    centerX := (d.x1 + d.x2) / 2
    centerY := (d.y1 + d.y2) / 2
    x1 := d.x1
    y1 := d.y1
    x2 := d.x2
    y2 := d.y2
    timestamp := now }

/-- Spatial-overlap test of the loop in ShouldAlert, filter file
lines 108-118. -/
def iouExceeds (cfg : FilterConfig) (d : Detection) (a : ActiveAlert) : Bool :=
  decide (calculateIoU d.x1 d.y1 d.x2 d.y2 a.x1 a.y1 a.x2 a.y2 >
    cfg.spatialIoUThreshold)

/-- ShouldAlert, filter file lines 77-136, as a pure function of the
configuration, the current activeAlerts list, the candidate and the
current time; returns the decision and the new activeAlerts list. -/
def ShouldAlert (cfg : FilterConfig) (alerts : List ActiveAlert)
    (d : Detection) (now : ℚ) : Bool × List ActiveAlert :=
  if !cfg.enableAlertPush then (false, alerts)
  else if !d.isUncertain then (false, alerts)
  else
    let valid := survivingAlerts cfg alerts now
    if valid.any (iouExceeds cfg d) then (false, valid)
    else (true, valid ++ [newActiveAlert d now])

/-- AlertMessage, ws file lines 50-62.  `imageData` is the Base64 crop
field (`ImageData`). -/
structure AlertMessage where
  id : Int
  frameId : Int
  timestamp : Int
  imageData : String
  x1 : ℚ
  y1 : ℚ
  x2 : ℚ
  y2 : ℚ
  className : String
  confidence : ℚ
  entropy : ℚ
  deriving Repr, DecidableEq

/-- ProcessDetections, filter file lines 163-190.  The crop step at
lines 182-183 is an unimplemented TODO in the source, so `imageData`
is left at the Go zero value (the empty string). -/
def ProcessDetections (cfg : FilterConfig) (alerts : List ActiveAlert)
    (r : DetectionResult) (now : ℚ) (nowMs : Int) :
    List AlertMessage × List ActiveAlert :=
  r.detections.foldl
    (fun acc d =>
      let step := ShouldAlert cfg acc.2 d now
      if step.1 then
        (acc.1 ++ [{ id := d.id
                     frameId := r.frameID
                     timestamp := nowMs
                     imageData := ""
                     x1 := d.x1
                     y1 := d.y1
                     x2 := d.x2
                     y2 := d.y2
                     className := d.className
                     confidence := d.confidence
                     entropy := d.entropy }], step.2)
      else (acc.1, step.2))
    ([], alerts)

/-! ## Bounded channels (non-blocking try-send)

A buffered Go channel of capacity `cap` is a list of at most `cap`
pending items.  `select { case ch <- x: default: drop }` appends when
there is room and otherwise drops `x`, never blocking. -/

/-- Non-blocking send into a bounded queue; the Bool records whether the
item was accepted. -/
def trySend {α : Type} (q : List α) (cap : Nat) (x : α) : List α × Bool :=
  if q.length < cap then (q ++ [x], true) else (q, false)

/-- Capacity of frameChan, main file (`make(chan *pipeline.Frame, 30)`). -/
def frameChanCap : Nat := 30

/-- Capacity of resultChan, main file
(`make(chan *pipeline.DetectionResult, 30)`). -/
def resultChanCap : Nat := 30

/-! ## gRPC dispatch (backend/internal/pipeline/grpc.go) -/

/-- Bbox of a raw protobuf result. -/
structure PbBBox where
  x1 : ℚ
  y1 : ℚ
  x2 : ℚ
  y2 : ℚ
  deriving Repr, DecidableEq

/-- One entry of `resp.Results` as read by grpc.go lines 224-238. -/
structure PbResult where
  id : Int
  bbox : PbBBox
  className : String
  classId : Int
  confidence : ℚ
  entropy : ℚ
  isUncertain : Bool
  deriving Repr, DecidableEq

/-- The fields of `pb.DetectResponse` read by grpc.go. -/
structure PbDetectResponse where
  error : String
  frameId : Int
  inferenceTimeMs : Int
  results : List PbResult
  deriving Repr, DecidableEq

/-- Outcome of one `client.Detect` attempt: a transport error
(`err != nil`) or a response. -/
inductive AttemptOutcome where
  | transportError : AttemptOutcome
  | ok : PbDetectResponse → AttemptOutcome
  deriving Repr, DecidableEq

/-- The break condition of the retry loop, grpc.go line 191
(`err == nil && resp.Error == ""`). -/
def attemptSuccess : AttemptOutcome → Bool
  | AttemptOutcome.transportError => false
  | AttemptOutcome.ok resp => resp.error == ""

/-- maxRetries, grpc.go line 184. -/
def maxRetries : Nat := 3

/-- Per-attempt timeout in milliseconds, grpc.go line 187
(`context.WithTimeout(gc.ctx, 5*time.Second)`). -/
def detectTimeoutMs : Nat := 5000

/-- Backoff between attempts in milliseconds, grpc.go line 197
(`time.Sleep(100 * time.Millisecond)`). -/
def backoffMs : Nat := 100

/-- The retry loop of detect, grpc.go lines 186-199.  `outcomes i` is
what attempt `i` would return; the function yields the number of
attempts actually issued, the total backoff slept (grpc.go sleeps only
after a failed non-final attempt), and the final outcome. -/
def detectGo (outcomes : Nat → AttemptOutcome) :
    Nat → Nat → Nat → Nat × Nat × AttemptOutcome
  | i, 0, slept => (i, slept, outcomes i)
  | i, 1, slept => (i + 1, slept, outcomes i)
  | i, remaining + 2, slept =>
    if attemptSuccess (outcomes i) then (i + 1, slept, outcomes i)
    else detectGo outcomes (i + 1) (remaining + 1) (slept + backoffMs)

/-- Field copy from a raw protobuf result to a Detection,
grpc.go lines 225-236. -/
def convertResult (r : PbResult) : Detection :=
  { id := r.id
    x1 := r.bbox.x1
    y1 := r.bbox.y1
    x2 := r.bbox.x2
    y2 := r.bbox.y2
    className := r.className
    classId := r.classId
    confidence := r.confidence
    entropy := r.entropy
    isUncertain := r.isUncertain }

/-- detect, grpc.go lines 165-241 (with a live client): run the retry
loop, then drop the frame (`nil`) on a final transport error or a
non-empty response error field, else build the DetectionResult. -/
def detect (frame : Frame) (outcomes : Nat → AttemptOutcome) (now : ℚ) :
    Option DetectionResult :=
  match (detectGo outcomes 0 maxRetries 0).2.2 with
  | AttemptOutcome.transportError => none
  | AttemptOutcome.ok resp =>
    if resp.error ≠ "" then none
    else
      some { frameID := resp.frameId
             frame := frame
             detections := resp.results.map convertResult
             inferenceTime := resp.inferenceTimeMs
             timestamp := now }

/-- Number of detect attempts issued for a given outcome oracle. -/
def detectAttempts (outcomes : Nat → AttemptOutcome) : Nat :=
  (detectGo outcomes 0 maxRetries 0).1

/-- Total backoff slept by the retry loop. -/
def detectBackoff (outcomes : Nat → AttemptOutcome) : Nat :=
  (detectGo outcomes 0 maxRetries 0).2.1

/-- Body of workerLoop for one received frame, grpc.go lines 137-154:
run detect and push a non-nil result into the result queue with a
non-blocking send (a full queue drops the result). -/
def workerStep (outcomes : Nat → AttemptOutcome) (now : ℚ)
    (frame : Option Frame) (resultQ : List DetectionResult) :
    List DetectionResult :=
  match frame with
  | none => resultQ
  | some f =>
    match detect f outcomes now with
    | none => resultQ
    | some r => (trySend resultQ resultChanCap r).1

/-- Response of `pb.UpdateParamsResponse` (success, message). -/
structure UpdateParamsResponse where
  success : Bool
  message : String
  deriving Repr, DecidableEq

/-- Response of `pb.ReloadModelResponse` (success, message). -/
structure ReloadModelResponse where
  success : Bool
  message : String
  deriving Repr, DecidableEq

/-- The fields of `pb.UpdateParamsRequest` built by the AI config
handler. -/
structure UpdateParamsRequest where
  confidenceThreshold : Option ℚ
  entropyThreshold : Option ℚ
  nmsIouThreshold : Option ℚ
  inputSize : Option Int
  deriving Repr, DecidableEq

/-- UpdateAIParams, grpc.go lines 244-263.  `client` is `none` when no
connection to the AI service exists; a connected client is a function
from the request to the remote `(resp, err)` pair. -/
def UpdateAIParams
    (client : Option (UpdateParamsRequest → Except String UpdateParamsResponse))
    (params : UpdateParamsRequest) : Except String UpdateParamsResponse :=
  match client with
  | none => Except.ok { success := true, message := "AI 服务未连接，仅更新本地配置" }
  | some call => call params

/-- ReloadModel, grpc.go lines 266-287. -/
def ReloadModel
    (client : Option (String → Except String ReloadModelResponse))
    (modelPath : String) : Except String ReloadModelResponse :=
  match client with
  | none => Except.ok { success := false, message := "AI 服务未连接" }
  | some call => call modelPath

/-- Boolean `err == nil` view of an `Except`-returning Go call. -/
def exceptIsOk {ε α : Type} : Except ε α → Bool
  | Except.ok _ => true
  | Except.error _ => false

/-! ## Video capture (video capture file) -/

namespace VideoCapture

/-- The mutable counters and lifecycle flag of VideoCapture
(video capture file lines 43 and 53-55). -/
structure State where
  frameID : Int
  totalRead : Int
  errors : Int
  isOpen : Bool
  deriving Repr, DecidableEq

/-- Counter state right after NewVideoCapture (all counters are Go
zero values, no capture running). -/
def initState : State :=
  { frameID := 0, totalRead := 0, errors := 0, isOpen := false }

/-- Default resolution set by NewVideoCapture, lines 66-67. -/
def defaultWidth : Int := 1280

/-- Default height set by NewVideoCapture, line 67. -/
def defaultHeight : Int := 720

/-- What one iteration of captureLoop observes from readJPEGFrame:
end of stream, a read error, or a JPEG frame payload. -/
inductive ReadResult where
  | eof : ReadResult
  | readError : ReadResult
  | frame : List Nat → ReadResult
  deriving Repr, DecidableEq

/-- One iteration of captureLoop, lines 186-229: EOF ends the loop, a
read error bumps the error counter, an empty payload is skipped, and a
parsed frame increments frameID/totalRead and produces a Frame carrying
the new frameID. -/
def captureStep (s : State) (ev : ReadResult) (now : ℚ) :
    State × Option Frame :=
  match ev with
  | ReadResult.eof => (s, none)
  | ReadResult.readError => ({ s with errors := s.errors + 1 }, none)
  | ReadResult.frame jpegData =>
    if jpegData.length = 0 then (s, none)
    else
      let s2 := { s with frameID := s.frameID + 1, totalRead := s.totalRead + 1 }
      (s2, some { id := s2.frameID
                  data := jpegData
                  timestamp := now
                  width := defaultWidth
                  height := defaultHeight })

/-- captureLoop over a sequence of read outcomes (each tagged with its
capture time); the loop exits at the first EOF.  Returns the final
counter state and the frames produced, in order. -/
def runCapture (s : State) : List (ReadResult × ℚ) → State × List Frame
  | [] => (s, [])
  | (ReadResult.eof, _) :: _ => (s, [])
  | (ev, t) :: rest =>
    let step := captureStep s ev t
    let tail := runCapture step.1 rest
    (tail.1, (step.2.elim tail.2 (fun f => f :: tail.2)))

/-- Stop, lines 145-168: tears the subprocess down and clears `isOpen`;
none of the counters is touched. -/
def Stop (s : State) : State :=
  if s.isOpen then { s with isOpen := false } else s

/-- Start, lines 72-142: launches ffmpeg and sets `isOpen` (a no-op when
already open); none of the counters is touched. -/
def Start (s : State) : State :=
  if s.isOpen then s else { s with isOpen := true }

/-- Restart, lines 171-178: Stop, recreate the context, Start.  Note no
field of the statistics state — in particular `frameID` — is reset. -/
def Restart (s : State) : State :=
  Start (Stop s)

/-- captureLoop iteration followed by the non-blocking publish into
frameChan, lines 220-228: a full frame queue drops the new frame. -/
def captureStepQ (s : State) (q : List Frame) (ev : ReadResult) (now : ℚ) :
    State × List Frame :=
  let step := captureStep s ev now
  match step.2 with
  | none => (step.1, q)
  | some f => (step.1, (trySend q frameChanCap f).1)

/-- The list `a, a+1, ..., a+n-1` of consecutive integers. -/
def intRange (a : Int) : Nat → List Int
  | 0 => []
  | n + 1 => a :: intRange (a + 1) n

end VideoCapture

/-! ## WebSocket hub (ws file) -/

/-- Capacity of a client's outbound queue, ws file line 275
(`make(chan []byte, 256)`). -/
def clientSendCap : Nat := 256

/-- A registered consumer: an identifier standing for the connection
and its bounded outbound queue of serialized messages. -/
structure HubClient where
  cid : Int
  send : List String
  deriving Repr, DecidableEq

/-- The broadcast arm of Hub.Run, ws file lines 116-127: for every
registered client try a non-blocking enqueue; a client whose queue is
full is removed from the set (and its queue closed). -/
def hubBroadcastStep (clients : List HubClient) (message : String) :
    List HubClient :=
  clients.filterMap (fun c =>
    if c.send.length < clientSendCap then
      some { c with send := c.send ++ [message] }
    else none)

/-- Repeated broadcast dispatch over a sequence of messages. -/
def hubRun (clients : List HubClient) (messages : List String) :
    List HubClient :=
  messages.foldl hubBroadcastStep clients

/-- DetectionData, ws file lines 36-47. -/
structure DetectionData where
  id : Int
  x1 : ℚ
  y1 : ℚ
  x2 : ℚ
  y2 : ℚ
  className : String
  classId : Int
  confidence : ℚ
  entropy : ℚ
  isUncertain : Bool
  deriving Repr, DecidableEq

/-- FrameMessage, ws file lines 26-33.  `imageData` keeps the raw JPEG
bytes; the Base64 text encoding is an injective serialization we do not
re-model. -/
structure FrameMessage where
  frameId : Int
  imageData : List Nat
  width : Int
  height : Int
  inferenceTime : Int
  detections : List DetectionData
  deriving Repr, DecidableEq

/-- Payload of a BroadcastMessage (`Data interface{}`). -/
inductive MessagePayload where
  | frame : FrameMessage → MessagePayload
  | alert : AlertMessage → MessagePayload
  deriving Repr, DecidableEq

/-- BroadcastMessage, ws file lines 19-23. -/
structure BroadcastMessage where
  type : String
  timestamp : Int
  data : MessagePayload
  deriving Repr, DecidableEq

/-- Field copy from a Detection to the broadcast DetectionData,
ws file lines 221-234. -/
def toDetectionData (d : Detection) : DetectionData :=
  { id := d.id
    x1 := d.x1
    y1 := d.y1
    x2 := d.x2
    y2 := d.y2
    className := d.className
    classId := d.classId
    confidence := d.confidence
    entropy := d.entropy
    isUncertain := d.isUncertain }

/-- Frame message built by broadcastLoop, ws file lines 212-219. -/
def buildFrameMessage (r : DetectionResult) : FrameMessage :=
  { frameId := r.frameID
    imageData := r.frame.data
    width := r.frame.width
    height := r.frame.height
    inferenceTime := r.inferenceTime
    detections := r.detections.map toDetectionData }

/-- One iteration of broadcastLoop, ws file lines 205-242: each
DetectionResult received from resultChan becomes a "frame" event. -/
def broadcastResultEvent (r : DetectionResult) (nowMs : Int) :
    BroadcastMessage :=
  { type := "frame"
    timestamp := nowMs
    data := MessagePayload.frame (buildFrameMessage r) }

/-- broadcastLoop over the drained contents of resultChan: the "frame"
events are produced exactly from the DetectionResults in the queue. -/
def broadcastLoop (results : List DetectionResult) (nowMs : Int) :
    List BroadcastMessage :=
  results.map (fun r => broadcastResultEvent r nowMs)

/-! ## HTTP configuration handlers (handler file) -/

/-- FilterConfigRequest, handler file lines 354-359 (pointer fields are
optional). -/
structure FilterConfigRequest where
  spatialIoUThreshold : Option ℚ
  timeWindowSeconds : Option Int
  enableAlertPush : Option Bool
  autoSaveSample : Option Bool
  deriving Repr, DecidableEq

/-- The two boolean assignments of UpdateFilterConfig, handler file
lines 387-393 (no validation on booleans). -/
def filterApplyFlags (cfg : FilterConfig) (req : FilterConfigRequest) :
    FilterConfig :=
  let cfg2 := match req.enableAlertPush with
    | some b => { cfg with enableAlertPush := b }
    | none => cfg
  match req.autoSaveSample with
  | some b => { cfg2 with autoSaveSample := b }
  | none => cfg2

/-- time_window_seconds validation of UpdateFilterConfig, handler file
lines 379-385: out of [1,120] rejects the request. -/
def filterStepTime (cfg : FilterConfig) (req : FilterConfigRequest) :
    Except String FilterConfig :=
  match req.timeWindowSeconds with
  | some v =>
    if v < 1 ∨ v > 120 then Except.error "time_window_seconds 必须在 1 到 120 之间"
    else Except.ok (filterApplyFlags { cfg with timeWindowSeconds := v } req)
  | none => Except.ok (filterApplyFlags cfg req)

/-- UpdateFilterConfig, handler file lines 362-403, as a function from
the stored FilterConfig and the request to either an HTTP 400 error
(nothing stored) or the new stored FilterConfig. -/
def UpdateFilterConfig (stored : FilterConfig) (req : FilterConfigRequest) :
    Except String FilterConfig :=
  match req.spatialIoUThreshold with
  | some v =>
    if v < 0 ∨ v > 1 then Except.error "spatial_iou_threshold 必须在 0.0 到 1.0 之间"
    else filterStepTime { stored with spatialIoUThreshold := v } req
  | none => filterStepTime stored req

/-- The filter section stored after serving the request: mutated only
when the handler reached `config.UpdateFilter` (no early 400 return). -/
def filterStoredAfter (stored : FilterConfig) (req : FilterConfigRequest) :
    FilterConfig :=
  match UpdateFilterConfig stored req with
  | Except.ok c => c
  | Except.error _ => stored

/-- AIConfigRequest, handler file lines 263-268. -/
structure AIConfigRequest where
  confidenceThreshold : Option ℚ
  entropyThreshold : Option ℚ
  nmsIoUThreshold : Option ℚ
  inputSize : Option Int
  deriving Repr, DecidableEq

/-- input_size validation of UpdateAIConfig, handler file lines 310-318. -/
def aiStepInput (cfg : AIConfig) (req : AIConfigRequest) :
    Except String AIConfig :=
  match req.inputSize with
  | some v =>
    if v ≠ 320 ∧ v ≠ 640 ∧ v ≠ 1280 then
      Except.error "input_size 必须是 320, 640 或 1280"
    else Except.ok { cfg with inputSize := v }
  | none => Except.ok cfg

/-- nms_iou_threshold validation of UpdateAIConfig, handler file
lines 301-308 (range [0.5,1]). -/
def aiStepNms (cfg : AIConfig) (req : AIConfigRequest) :
    Except String AIConfig :=
  match req.nmsIoUThreshold with
  | some v =>
    if v < 1/2 ∨ v > 1 then Except.error "nms_iou_threshold 必须在 0.5 到 1.0 之间"
    else aiStepInput { cfg with nmsIoUThreshold := v } req
  | none => aiStepInput cfg req

/-- entropy_threshold validation of UpdateAIConfig, handler file
lines 292-299. -/
def aiStepEntropy (cfg : AIConfig) (req : AIConfigRequest) :
    Except String AIConfig :=
  match req.entropyThreshold with
  | some v =>
    if v < 0 ∨ v > 1 then Except.error "entropy_threshold 必须在 0.0 到 1.0 之间"
    else aiStepNms { cfg with entropyThreshold := v } req
  | none => aiStepNms cfg req

/-- UpdateAIConfig, handler file lines 271-344: sequential validation of
the four optional fields, `config.UpdateAI` only after all checks pass
(the gRPC passthrough never fails the request). -/
def UpdateAIConfig (stored : AIConfig) (req : AIConfigRequest) :
    Except String AIConfig :=
  match req.confidenceThreshold with
  | some v =>
    if v < 0 ∨ v > 1 then Except.error "confidence_threshold 必须在 0.0 到 1.0 之间"
    else aiStepEntropy { stored with confidenceThreshold := v } req
  | none => aiStepEntropy stored req

/-- The AI section stored after serving the request. -/
def aiStoredAfter (stored : AIConfig) (req : AIConfigRequest) : AIConfig :=
  match UpdateAIConfig stored req with
  | Except.ok c => c
  | Except.error _ => stored

/-! ## Helper lemmas -/

theorem max32_eq_max (a b : ℚ) : max32 a b = max b a := by
  unfold max32
  split_ifs with h
  · exact (max_eq_right (le_of_lt h)).symm
  · exact (max_eq_left (le_of_not_lt h)).symm

theorem min32_eq_min (a b : ℚ) : min32 a b = min b a := by
  unfold min32
  split_ifs with h
  · exact (min_eq_right (le_of_lt h)).symm
  · exact (min_eq_left (le_of_not_lt h)).symm

theorem calculateIoU_comm (x1a y1a x2a y2a x1b y1b x2b y2b : ℚ) :
    calculateIoU x1a y1a x2a y2a x1b y1b x2b y2b =
      calculateIoU x1b y1b x2b y2b x1a y1a x2a y2a := by
  simp only [calculateIoU, max32_eq_max, min32_eq_min]
  rw [max_comm x1a x1b, max_comm y1a y1b, min_comm x2a x2b, min_comm y2a y2b,
    add_comm ((x2a - x1a) * (y2a - y1a)) ((x2b - x1b) * (y2b - y1b))]

theorem ShouldAlert_suppress (cfg : FilterConfig) (s : List ActiveAlert)
    (d : Detection) (now : ℚ) (hPush : cfg.enableAlertPush = true)
    (hUnc : d.isUncertain = true)
    (hAny : (survivingAlerts cfg s now).any (iouExceeds cfg d) = true) :
    ShouldAlert cfg s d now = (false, survivingAlerts cfg s now) := by
  simp [ShouldAlert, hPush, hUnc, hAny]

theorem ShouldAlert_accepts (cfg : FilterConfig) (s : List ActiveAlert)
    (d : Detection) (now : ℚ) (hPush : cfg.enableAlertPush = true)
    (hUnc : d.isUncertain = true)
    (hAny : (survivingAlerts cfg s now).any (iouExceeds cfg d) = false) :
    ShouldAlert cfg s d now =
      (true, survivingAlerts cfg s now ++ [newActiveAlert d now]) := by
  simp [ShouldAlert, hPush, hUnc, hAny]

theorem survivingAlerts_idem (cfg : FilterConfig) (s : List ActiveAlert)
    (now : ℚ) :
    survivingAlerts cfg (survivingAlerts cfg s now) now =
      survivingAlerts cfg s now := by
  simp [survivingAlerts, List.filter_filter]

/-! ## Claims -/

/-- C1: the spec claims every emitted AlertMessage carries an image crop
of the detection box expanded 50% per side and clipped to the frame.
In the source the crop step is an unimplemented TODO (filter file lines
182-183), so ProcessDetections leaves the `imageData` crop field at the
empty string: on an admitted uncertain detection the engine emits
exactly one AlertMessage whose crop field is empty. -/
theorem processDetections_crop_missing :
    (ProcessDetections defaultFilterConfig []
      { frameID := 5
        frame := { id := 5, data := [255, 216, 255, 217], timestamp := 0,
                   width := 1280, height := 720 }
        detections := [{ id := 1, x1 := 100, y1 := 100, x2 := 200, y2 := 200,
                         className := "anomaly", classId := 0,
                         confidence := 9/10, entropy := 8/10,
                         isUncertain := true }]
        inferenceTime := 12
        timestamp := 0 }
      0 0).1.map AlertMessage.imageData = [("")] := by
  norm_num [ProcessDetections, ShouldAlert, defaultFilterConfig, survivingAlerts]

/-- C2: while alert push is enabled, for every uncertain candidate
either some surviving ActiveAlert overlaps it above the spatial
threshold — then ShouldAlert returns false and appends nothing — or
none does — then it returns true and appends exactly one entry carrying
the candidate's box, center and the current time.  Consequently of two
same-class detections whose boxes overlap above the threshold within
the time window, at most one is admitted (produces an AlertMessage). -/
theorem shouldAlert_dedup_correct :
    (∀ (cfg : FilterConfig) (s : List ActiveAlert) (d : Detection) (now : ℚ),
      cfg.enableAlertPush = true → d.isUncertain = true →
      (survivingAlerts cfg s now).any (iouExceeds cfg d) = true →
      ShouldAlert cfg s d now = (false, survivingAlerts cfg s now)) ∧
    (∀ (cfg : FilterConfig) (s : List ActiveAlert) (d : Detection) (now : ℚ),
      cfg.enableAlertPush = true → d.isUncertain = true →
      (survivingAlerts cfg s now).any (iouExceeds cfg d) = false →
      ShouldAlert cfg s d now =
        (true, survivingAlerts cfg s now ++ [newActiveAlert d now])) ∧
    (∀ (cfg : FilterConfig) (s : List ActiveAlert) (d1 d2 : Detection)
        (t1 t2 : ℚ),
      cfg.enableAlertPush = true →
      d1.isUncertain = true → d2.isUncertain = true →
      d1.className = d2.className →
      calculateIoU d1.x1 d1.y1 d1.x2 d1.y2 d2.x1 d2.y1 d2.x2 d2.y2 >
        cfg.spatialIoUThreshold →
      t1 > t2 - (cfg.timeWindowSeconds : ℚ) →
      ¬((ShouldAlert cfg s d1 t1).1 = true ∧
        (ShouldAlert cfg (ShouldAlert cfg s d1 t1).2 d2 t2).1 = true)) := by
  refine ⟨ShouldAlert_suppress, ShouldAlert_accepts, ?_⟩
  intro cfg s d1 d2 t1 t2 hPush hU1 hU2 _hClass hIoU hWin
  rintro ⟨hb1, hb2⟩
  have hAny1 : (survivingAlerts cfg s t1).any (iouExceeds cfg d1) = false := by
    cases h : (survivingAlerts cfg s t1).any (iouExceeds cfg d1) with
    | false => rfl
    | true =>
      rw [ShouldAlert_suppress cfg s d1 t1 hPush hU1 h] at hb1
      simp at hb1
  have hs1 : (ShouldAlert cfg s d1 t1).2 =
      survivingAlerts cfg s t1 ++ [newActiveAlert d1 t1] := by
    rw [ShouldAlert_accepts cfg s d1 t1 hPush hU1 hAny1]
  have hmem : newActiveAlert d1 t1 ∈
      survivingAlerts cfg ((ShouldAlert cfg s d1 t1).2) t2 := by
    rw [hs1]
    simp only [survivingAlerts, List.mem_filter, List.mem_append,
      List.mem_singleton, decide_eq_true_eq]
    exact ⟨Or.inr trivial, hWin⟩
  have hAny2 : (survivingAlerts cfg ((ShouldAlert cfg s d1 t1).2) t2).any
      (iouExceeds cfg d2) = true := by
    rw [List.any_eq_true]
    refine ⟨newActiveAlert d1 t1, hmem, ?_⟩
    simp only [iouExceeds, newActiveAlert, decide_eq_true_eq]
    rw [calculateIoU_comm]
    exact hIoU
  rw [ShouldAlert_suppress cfg ((ShouldAlert cfg s d1 t1).2) d2 t2 hPush hU2
    hAny2] at hb2
  simp at hb2

/-- Witness for C2: the spec §8 scenario — box (100,100,200,200)
admitted at t=0, box (110,105,205,205) two seconds later has IoU
8550/10950 ≈ 0.78 > 0.5 and is suppressed, so the two detections do not
both alert. -/
theorem shouldAlert_dedup_correct_witness :
    ¬((ShouldAlert defaultFilterConfig []
        { id := 1, x1 := 100, y1 := 100, x2 := 200, y2 := 200,
          className := "anomaly", classId := 0, confidence := 9/10,
          entropy := 8/10, isUncertain := true } 0).1 = true ∧
      (ShouldAlert defaultFilterConfig
        (ShouldAlert defaultFilterConfig []
          { id := 1, x1 := 100, y1 := 100, x2 := 200, y2 := 200,
            className := "anomaly", classId := 0, confidence := 9/10,
            entropy := 8/10, isUncertain := true } 0).2
        { id := 2, x1 := 110, y1 := 105, x2 := 205, y2 := 205,
          className := "anomaly", classId := 0, confidence := 6/10,
          entropy := 9/10, isUncertain := true } 2).1 = true) :=
  shouldAlert_dedup_correct.2.2 defaultFilterConfig []
    { id := 1, x1 := 100, y1 := 100, x2 := 200, y2 := 200,
      className := "anomaly", classId := 0, confidence := 9/10,
      entropy := 8/10, isUncertain := true }
    { id := 2, x1 := 110, y1 := 105, x2 := 205, y2 := 205,
      className := "anomaly", classId := 0, confidence := 6/10,
      entropy := 9/10, isUncertain := true }
    0 2 rfl rfl rfl rfl
    (by norm_num [calculateIoU, max32, min32, defaultFilterConfig])
    (by norm_num [defaultFilterConfig])

/-- C3: per taken frame a dispatch worker issues between 1 and 3 detect
attempts (maxRetries = 3), each under the 5 s (5000 ms) timeout, with a
fixed 100 ms backoff slept between consecutive attempts (total backoff
= 100 ms × (attempts − 1)); and when every attempt fails — transport
error or non-empty response error field — detect returns none, dropping
the frame without producing or requeuing anything. -/
theorem detect_retry_policy (outcomes : Nat → AttemptOutcome) (frame : Frame)
    (now : ℚ) :
    (1 ≤ detectAttempts outcomes ∧ detectAttempts outcomes ≤ maxRetries) ∧
    (maxRetries = 3 ∧ detectTimeoutMs = 5000 ∧ backoffMs = 100) ∧
    detectBackoff outcomes = backoffMs * (detectAttempts outcomes - 1) ∧
    ((∀ i, i < maxRetries → attemptSuccess (outcomes i) = false) →
      detect frame outcomes now = none) := by
  by_cases h0 : attemptSuccess (outcomes 0) = true
  · refine ⟨?_, ⟨rfl, rfl, rfl⟩, ?_, ?_⟩
    · simp [detectAttempts, detectGo, maxRetries, h0]
    · simp [detectAttempts, detectBackoff, detectGo, maxRetries, h0]
    · intro hall
      exact absurd h0 (by simp [hall 0 (by simp [maxRetries])])
  · by_cases h1 : attemptSuccess (outcomes 1) = true
    · refine ⟨?_, ⟨rfl, rfl, rfl⟩, ?_, ?_⟩
      · simp [detectAttempts, detectGo, maxRetries, h0, h1]
      · simp [detectAttempts, detectBackoff, detectGo, maxRetries, backoffMs,
          h0, h1]
      · intro hall
        exact absurd h1 (by simp [hall 1 (by simp [maxRetries])])
    · refine ⟨?_, ⟨rfl, rfl, rfl⟩, ?_, ?_⟩
      · simp [detectAttempts, detectGo, maxRetries, h0, h1]
      · simp [detectAttempts, detectBackoff, detectGo, maxRetries, backoffMs,
          h0, h1]
      · intro hall
        have h2 := hall 2 (by simp [maxRetries])
        have hfinal : (detectGo outcomes 0 maxRetries 0).2.2 = outcomes 2 := by
          simp [detectGo, maxRetries, h0, h1]
        unfold detect
        rw [hfinal]
        cases ho : outcomes 2 with
        | transportError => rfl
        | ok resp =>
          have : (resp.error == "") = false := by rw [ho] at h2; exact h2
          simp only [attemptSuccess] at this
          simp [beq_iff_eq] at this
          simp [this]

/-- Witness for C3: with every attempt a transport error, 3 attempts
are issued, 200 ms of backoff are slept and the frame is dropped. -/
theorem detect_retry_policy_witness :
    detect { id := 1, data := [], timestamp := 0, width := 1280, height := 720 }
      (fun _ => AttemptOutcome.transportError) 0 = none :=
  (detect_retry_policy (fun _ => AttemptOutcome.transportError)
    { id := 1, data := [], timestamp := 0, width := 1280, height := 720 }
    0).2.2.2 (fun _ _ => rfl)

/-- C4 counterexample: with no connection to the inference service,
ReloadModel does answer with a nil error, but the response it returns
reports Success = false ("AI 服务未连接") — not the successful
local-only response the claim states for both administrative calls. -/
theorem reloadModel_noConn_not_successful :
    exceptIsOk (ReloadModel none ("model.pt")) = true ∧
    (ReloadModel none ("model.pt")).toOption.map ReloadModelResponse.success =
      some false :=
  ⟨rfl, rfl⟩

/-- C4 amended: whenever no connection to the external inference
service exists, both administrative calls return a well-formed response
with a nil error rather than failing; UpdateAIParams reports
success = true (parameters kept locally only), while ReloadModel
reports success = false with a "service not connected" message. -/
theorem adminCalls_noConn_wellFormed (params : UpdateParamsRequest)
    (path : String) :
    UpdateAIParams none params =
      Except.ok { success := true, message := "AI 服务未连接，仅更新本地配置" } ∧
    ReloadModel none path =
      Except.ok { success := false, message := "AI 服务未连接" } :=
  ⟨rfl, rfl⟩

namespace VideoCapture

theorem runCapture_ids (evs : List (ReadResult × ℚ)) :
    ∀ s : State, ((runCapture s evs).2.map Frame.id) =
      intRange (s.frameID + 1) (runCapture s evs).2.length := by
  induction evs with
  | nil => intro s; simp [runCapture, intRange]
  | cons ev rest ih =>
    intro s
    obtain ⟨r, t⟩ := ev
    cases r with
    | eof => simp [runCapture, intRange]
    | readError =>
      simp only [runCapture, captureStep, Option.elim]
      exact ih _
    | frame jpegData =>
      by_cases hlen : jpegData.length = 0
      · simp only [runCapture, captureStep, hlen, if_pos rfl, Option.elim]
        exact ih _
      · simp only [runCapture, captureStep, if_neg hlen, Option.elim,
          List.map_cons, List.length_cons]
        have := ih { s with frameID := s.frameID + 1,
                            totalRead := s.totalRead + 1 }
        simp only [intRange] at this ⊢
        rw [this]

end VideoCapture

/-- C5 counterexample: the claim says the sequence counter is reset
after Restart.  In the source Restart = Stop + Start and neither
touches `frameID`: after two parsed frames and a Restart the next
parsed frame carries id 3 (not a restarted id), and the post-Restart
counter still reads 2. -/
theorem restart_reset_counterexample :
    ((VideoCapture.runCapture
        (VideoCapture.Restart
          (VideoCapture.runCapture VideoCapture.initState
            [(VideoCapture.ReadResult.frame [255, 216, 255, 217], 0),
             (VideoCapture.ReadResult.frame [255, 216, 255, 217], 1)]).1)
        [(VideoCapture.ReadResult.frame [255, 216, 255, 217], 2)]).2.map
      Frame.id) = [3] ∧
    (VideoCapture.Restart
      (VideoCapture.runCapture VideoCapture.initState
        [(VideoCapture.ReadResult.frame [255, 216, 255, 217], 0),
         (VideoCapture.ReadResult.frame [255, 216, 255, 217], 1)]).1).frameID
      = 2 :=
  ⟨rfl, rfl⟩

/-- C5 amended: within one source lifetime frame sequence ids start at
1 and increase by exactly 1 per successfully parsed frame; Restart does
not reset the counter, so ids continue monotonically from the
pre-restart value across restarts. -/
theorem frame_ids_sequential :
    (∀ evs, ((VideoCapture.runCapture VideoCapture.initState evs).2.map
        Frame.id) =
      VideoCapture.intRange 1
        (VideoCapture.runCapture VideoCapture.initState evs).2.length) ∧
    (∀ s evs, ((VideoCapture.runCapture s evs).2.map Frame.id) =
      VideoCapture.intRange (s.frameID + 1)
        (VideoCapture.runCapture s evs).2.length) ∧
    (∀ s, (VideoCapture.Restart s).frameID = s.frameID) := by
  refine ⟨?_, ?_, ?_⟩
  · intro evs
    have := VideoCapture.runCapture_ids evs VideoCapture.initState
    simpa [VideoCapture.initState] using this
  · intro s evs
    exact VideoCapture.runCapture_ids evs s
  · intro s
    simp only [VideoCapture.Restart, VideoCapture.Stop, VideoCapture.Start]
    split_ifs <;> rfl

/-- C6: every publish into the frame queue and the result queue is a
non-blocking try-send — a full queue drops the newly produced item and
leaves the queue unchanged, a queue with room appends it — so the
occupancy of either queue never exceeds its fixed capacity (30). -/
theorem queue_publish_nonblocking :
    (∀ (α : Type) (q : List α) (cap : Nat) (x : α), q.length ≤ cap →
      ((trySend q cap x).1).length ≤ cap) ∧
    (∀ (α : Type) (q : List α) (cap : Nat) (x : α), ¬ q.length < cap →
      trySend q cap x = (q, false)) ∧
    (∀ (α : Type) (q : List α) (cap : Nat) (x : α), q.length < cap →
      trySend q cap x = (q ++ [x], true)) ∧
    (∀ s q ev now, q.length ≤ frameChanCap →
      ((VideoCapture.captureStepQ s q ev now).2).length ≤ frameChanCap) ∧
    (∀ outcomes now f q, q.length ≤ resultChanCap →
      (workerStep outcomes now f q).length ≤ resultChanCap) := by
  have hsend : ∀ (α : Type) (q : List α) (cap : Nat) (x : α),
      q.length ≤ cap → ((trySend q cap x).1).length ≤ cap := by
    intro α q cap x h
    unfold trySend
    split_ifs with hlt
    · simpa using hlt
    · exact h
  refine ⟨hsend, ?_, ?_, ?_, ?_⟩
  · intro α q cap x h
    simp [trySend, h]
  · intro α q cap x h
    simp [trySend, h]
  · intro s q ev now h
    unfold VideoCapture.captureStepQ
    cases hstep : (VideoCapture.captureStep s ev now).2 with
    | none => simp only [hstep]; exact h
    | some f => simp only [hstep]; exact hsend Frame q frameChanCap f h
  · intro outcomes now f q h
    unfold workerStep
    cases f with
    | none => exact h
    | some fr =>
      dsimp only
      cases hdet : detect fr outcomes now with
      | none => exact h
      | some r => exact hsend DetectionResult q resultChanCap r h

/-- Witness for C6: a frame queue already holding 30 frames drops the
31st frame and stays at occupancy 30. -/
theorem queue_publish_nonblocking_witness :
    trySend
      (List.replicate 30
        ({ id := 1, data := [], timestamp := 0, width := 1280,
           height := 720 } : Frame))
      30
      ({ id := 31, data := [], timestamp := 0, width := 1280,
         height := 720 } : Frame) =
    (List.replicate 30
      ({ id := 1, data := [], timestamp := 0, width := 1280,
         height := 720 } : Frame), false) :=
  queue_publish_nonblocking.2.1 Frame
    (List.replicate 30
      ({ id := 1, data := [], timestamp := 0, width := 1280,
         height := 720 } : Frame))
    30
    ({ id := 31, data := [], timestamp := 0, width := 1280,
       height := 720 } : Frame)
    (by simp)

/-- C7: expired ActiveAlert entries never influence a suppression
decision — ShouldAlert decides identically on the raw list and on its
in-window purge (the IoU scan runs only over surviving entries), every
surviving entry is strictly inside the time window, and the periodic
sweep (cleanup) purges exactly the expired entries. -/
theorem suppression_window_invariant :
    (∀ cfg s d now,
      (ShouldAlert cfg s d now).1 =
        (ShouldAlert cfg (survivingAlerts cfg s now) d now).1) ∧
    (∀ cfg s now a, a ∈ survivingAlerts cfg s now →
      a.timestamp > now - (cfg.timeWindowSeconds : ℚ)) ∧
    (∀ cfg s now a,
      a ∈ cleanup cfg s now ↔
        a ∈ s ∧ a.timestamp > now - (cfg.timeWindowSeconds : ℚ)) := by
  refine ⟨?_, ?_, ?_⟩
  · intro cfg s d now
    cases hPush : cfg.enableAlertPush with
    | false => simp [ShouldAlert, hPush]
    | true =>
      cases hUnc : d.isUncertain with
      | false => simp [ShouldAlert, hPush, hUnc]
      | true => simp [ShouldAlert, hPush, hUnc, survivingAlerts_idem]
  · intro cfg s now a ha
    simp only [survivingAlerts, List.mem_filter, decide_eq_true_eq] at ha
    exact ha.2
  · intro cfg s now a
    simp [cleanup, survivingAlerts, List.mem_filter]

/-- Witness for C7: an entry 10 s old survives a 60 s window and lies
strictly inside it. -/
theorem suppression_window_invariant_witness :
    ({ id := 1, centerX := 150, centerY := 150, x1 := 100, y1 := 100,
       x2 := 200, y2 := 200, timestamp := 10 } : ActiveAlert).timestamp >
      (20 : ℚ) - ((defaultFilterConfig.timeWindowSeconds : Int) : ℚ) :=
  suppression_window_invariant.2.1 defaultFilterConfig
    [{ id := 1, centerX := 150, centerY := 150, x1 := 100, y1 := 100,
       x2 := 200, y2 := 200, timestamp := 10 }]
    20
    { id := 1, centerX := 150, centerY := 150, x1 := 100, y1 := 100,
      x2 := 200, y2 := 200, timestamp := 10 }
    (by norm_num [survivingAlerts, defaultFilterConfig])

namespace ADSHub

theorem hubRun_singleton (messages : List String) :
    ∀ c : HubClient, c.send.length + messages.length ≤ clientSendCap →
      hubRun [c] messages = [{ c with send := c.send ++ messages }] := by
  induction messages with
  | nil => intro c _; simp [hubRun]
  | cons m rest ih =>
    intro c h
    have hlt : c.send.length < clientSendCap := by
      simp only [List.length_cons] at h
      omega
    have hstep : hubBroadcastStep [c] m = [{ c with send := c.send ++ [m] }] := by
      simp [hubBroadcastStep, hlt]
    have hrest : ({ c with send := c.send ++ [m] } : HubClient).send.length +
        rest.length ≤ clientSendCap := by
      simp only [List.length_append, List.length_singleton]
      simp only [List.length_cons] at h
      omega
    calc hubRun [c] (m :: rest)
        = hubRun (hubBroadcastStep [c] m) rest := rfl
      _ = hubRun [{ c with send := c.send ++ [m] }] rest := by rw [hstep]
      _ = [{ c with send := (c.send ++ [m]) ++ rest }] := ih _ hrest
      _ = [{ c with send := c.send ++ (m :: rest) }] := by
          simp [List.append_assoc]

end ADSHub

/-- C8: in each dispatch of a broadcast event, every consumer whose
bounded outbound queue has room receives the event and stays
registered; every consumer left registered afterwards is one that had
room and received the event (so a consumer with a full queue is
evicted); and delivery to a healthy consumer never waits on a stalled
one — broadcasting any batch of at most 256 events to one empty-queue
consumer and one permanently full consumer leaves exactly the healthy
consumer registered, holding all the events in order. -/
theorem hub_fanout_eviction :
    (∀ (clients : List HubClient) (message : String) (c : HubClient),
      c ∈ clients → c.send.length < clientSendCap →
      { c with send := c.send ++ [message] } ∈
        hubBroadcastStep clients message) ∧
    (∀ (clients : List HubClient) (message : String) (c2 : HubClient),
      c2 ∈ hubBroadcastStep clients message →
      ∃ c, c ∈ clients ∧ c.send.length < clientSendCap ∧
        c2 = { c with send := c.send ++ [message] }) ∧
    (∀ (healthy stalled : HubClient) (messages : List String),
      healthy.send = [] → clientSendCap ≤ stalled.send.length →
      messages ≠ [] → messages.length ≤ clientSendCap →
      hubRun [healthy, stalled] messages =
        [{ healthy with send := messages }]) := by
  refine ⟨?_, ?_, ?_⟩
  · intro clients message c hc hlt
    refine List.mem_filterMap.mpr ⟨c, hc, ?_⟩
    simp [hlt]
  · intro clients message c2 hc2
    obtain ⟨c, hc, hfc⟩ := List.mem_filterMap.mp hc2
    by_cases hlt : c.send.length < clientSendCap
    · rw [if_pos hlt] at hfc
      exact ⟨c, hc, hlt, (Option.some_inj.mp hfc).symm⟩
    · rw [if_neg hlt] at hfc
      exact absurd hfc (by simp)
  · intro healthy stalled messages hEmpty hFull hNe hLen
    obtain ⟨m, rest, rfl⟩ := List.exists_cons_of_ne_nil hNe
    have hstep : hubBroadcastStep [healthy, stalled] m =
        [{ healthy with send := healthy.send ++ [m] }] := by
      have h1 : healthy.send.length < clientSendCap := by
        rw [hEmpty]; simp [clientSendCap]
      have h2 : ¬ stalled.send.length < clientSendCap := by omega
      simp [hubBroadcastStep, h1, h2]
    have hrest : ({ healthy with send := healthy.send ++ [m] } :
        HubClient).send.length + rest.length ≤ clientSendCap := by
      simp only [List.length_append, List.length_singleton, hEmpty,
        List.length_nil]
      simp only [List.length_cons] at hLen
      omega
    calc hubRun [healthy, stalled] (m :: rest)
        = hubRun (hubBroadcastStep [healthy, stalled] m) rest := rfl
      _ = hubRun [{ healthy with send := healthy.send ++ [m] }] rest := by
          rw [hstep]
      _ = [{ healthy with send := (healthy.send ++ [m]) ++ rest }] :=
          ADSHub.hubRun_singleton rest _ hrest
      _ = [{ healthy with send := m :: rest }] := by
          rw [hEmpty]
          simp

/-- Witness for C8: two events broadcast to one empty consumer and one
consumer whose queue already holds 256 messages: the full consumer is
evicted and the healthy one ends up holding both events. -/
theorem hub_fanout_eviction_witness :
    hubRun
      [({ cid := 1, send := [] } : HubClient),
       ({ cid := 2, send := List.replicate 256 ("x") } : HubClient)]
      [("a"), ("b")] =
    [({ cid := 1, send := [("a"), ("b")] } : HubClient)] :=
  hub_fanout_eviction.2.2
    ({ cid := 1, send := [] } : HubClient)
    ({ cid := 2, send := List.replicate 256 ("x") } : HubClient)
    [("a"), ("b")] rfl (by norm_num [clientSendCap]) (by simp)
    (by norm_num [clientSendCap])

/-- C9 counterexample: the claim says a frame whose detection fails is
still delivered to the Broadcast Hub as a "frame" event.  With every
detect attempt a transport error, the worker pushes nothing into the
result queue, and broadcastLoop — which builds "frame" events only
from DetectionResults in that queue — emits no event at all for the
frame. -/
theorem failedDetect_no_frame_event :
    workerStep (fun _ => AttemptOutcome.transportError) 0
      (some { id := 7, data := [255, 216, 255, 217], timestamp := 0,
              width := 1280, height := 720 }) [] = [] ∧
    broadcastLoop
      (workerStep (fun _ => AttemptOutcome.transportError) 0
        (some { id := 7, data := [255, 216, 255, 217], timestamp := 0,
                width := 1280, height := 720 }) []) 0 = [] :=
  ⟨rfl, rfl⟩

/-- C9 amended: when every detect attempt for a frame fails, the frame
is dropped entirely — the result queue is unchanged and no "frame"
event is broadcast for it; the pipeline is not halted: a frame whose
detection succeeds still yields a DetectionResult in the queue, and
every queued result is broadcast as a "frame" event. -/
theorem failedDetect_drops_frame (outcomes : Nat → AttemptOutcome) (now : ℚ)
    (f : Frame) (q : List DetectionResult) :
    ((∀ i, i < maxRetries → attemptSuccess (outcomes i) = false) →
      workerStep outcomes now (some f) q = q) ∧
    (∀ resp : PbDetectResponse, resp.error = "" → q.length < resultChanCap →
      workerStep (fun _ => AttemptOutcome.ok resp) now (some f) q =
        q ++ [{ frameID := resp.frameId
                frame := f
                detections := resp.results.map convertResult
                inferenceTime := resp.inferenceTimeMs
                timestamp := now }]) ∧
    (∀ (r : DetectionResult) (nowMs : Int),
      broadcastLoop (q ++ [r]) nowMs =
        broadcastLoop q nowMs ++ [broadcastResultEvent r nowMs] ∧
      (broadcastResultEvent r nowMs).type = "frame") := by
  refine ⟨?_, ?_, ?_⟩
  · intro hall
    have hnone : detect f outcomes now = none := by
      have h0 := hall 0 (by simp [maxRetries])
      have h1 := hall 1 (by simp [maxRetries])
      have h2 := hall 2 (by simp [maxRetries])
      have hfinal : (detectGo outcomes 0 maxRetries 0).2.2 = outcomes 2 := by
        simp [detectGo, maxRetries, h0, h1]
      unfold detect
      rw [hfinal]
      cases ho : outcomes 2 with
      | transportError => rfl
      | ok resp =>
        rw [ho] at h2
        simp [attemptSuccess, beq_iff_eq] at h2
        simp [h2]
    simp [workerStep, hnone]
  · intro resp hok hroom
    have hsucc : attemptSuccess (AttemptOutcome.ok resp) = true := by
      simp [attemptSuccess, hok]
    have hdet : detect f (fun _ => AttemptOutcome.ok resp) now =
        some { frameID := resp.frameId
               frame := f
               detections := resp.results.map convertResult
               inferenceTime := resp.inferenceTimeMs
               timestamp := now } := by
      have hfinal : (detectGo (fun _ => AttemptOutcome.ok resp) 0 maxRetries
          0).2.2 = AttemptOutcome.ok resp := by
        simp [detectGo, maxRetries, hsucc]
      unfold detect
      rw [hfinal]
      simp [hok]
    simp [workerStep, hdet, trySend, hroom]
  · intro r nowMs
    exact ⟨by simp [broadcastLoop], rfl⟩

/-- Witness for C9 amended: a frame whose three attempts all fail on
transport leaves the empty result queue empty. -/
theorem failedDetect_drops_frame_witness :
    workerStep (fun _ => AttemptOutcome.transportError) 0
      (some { id := 8, data := [255, 216], timestamp := 0, width := 1280,
              height := 720 }) [] = [] :=
  (failedDetect_drops_frame (fun _ => AttemptOutcome.transportError) 0
    { id := 8, data := [255, 216], timestamp := 0, width := 1280,
      height := 720 } []).1 (fun _ _ => rfl)

/-! Helper lemmas for the configuration handlers. -/

theorem filterApplyFlags_spatial (cfg : FilterConfig)
    (req : FilterConfigRequest) :
    (filterApplyFlags cfg req).spatialIoUThreshold =
      cfg.spatialIoUThreshold := by
  unfold filterApplyFlags
  cases req.enableAlertPush <;> cases req.autoSaveSample <;> rfl

theorem filterStepTime_spatial (cfg : FilterConfig)
    (req : FilterConfigRequest) (c : FilterConfig)
    (h : filterStepTime cfg req = Except.ok c) :
    c.spatialIoUThreshold = cfg.spatialIoUThreshold := by
  unfold filterStepTime at h
  cases htw : req.timeWindowSeconds with
  | none =>
    rw [htw] at h
    have := Except.ok.inj h
    rw [← this, filterApplyFlags_spatial]
  | some v =>
    rw [htw] at h
    dsimp only at h
    split_ifs at h with hr
    have := Except.ok.inj h
    rw [← this, filterApplyFlags_spatial]

/-- C10: a configuration update request carrying an out-of-range value
(spatial_iou_threshold outside [0,1], time_window_seconds outside
[1,120], or confidence_threshold outside [0,1]) is rejected with an
error before the runtime configuration is mutated — the stored section
is unchanged — and an accepted value is stored exactly as sent, never
clamped. -/
theorem config_update_validation (stored : FilterConfig)
    (storedAI : AIConfig) (req : FilterConfigRequest)
    (reqAI : AIConfigRequest) :
    (∀ v : ℚ, req.spatialIoUThreshold = some v → (v < 0 ∨ v > 1) →
      UpdateFilterConfig stored req =
        Except.error "spatial_iou_threshold 必须在 0.0 到 1.0 之间" ∧
      filterStoredAfter stored req = stored) ∧
    (∀ v : Int, req.timeWindowSeconds = some v → (v < 1 ∨ v > 120) →
      exceptIsOk (UpdateFilterConfig stored req) = false ∧
      filterStoredAfter stored req = stored) ∧
    (∀ v : ℚ, reqAI.confidenceThreshold = some v → (v < 0 ∨ v > 1) →
      UpdateAIConfig storedAI reqAI =
        Except.error "confidence_threshold 必须在 0.0 到 1.0 之间" ∧
      aiStoredAfter storedAI reqAI = storedAI) ∧
    (∀ (c : FilterConfig) (v : ℚ),
      UpdateFilterConfig stored req = Except.ok c →
      req.spatialIoUThreshold = some v →
      c.spatialIoUThreshold = v) := by
  refine ⟨?_, ?_, ?_, ?_⟩
  · intro v hv hout
    have herr : UpdateFilterConfig stored req =
        Except.error "spatial_iou_threshold 必须在 0.0 到 1.0 之间" := by
      unfold UpdateFilterConfig
      rw [hv]
      dsimp only
      rw [if_pos hout]
    exact ⟨herr, by unfold filterStoredAfter; rw [herr]⟩
  · intro v hv hout
    have key : ∀ cfg : FilterConfig, filterStepTime cfg req =
        Except.error "time_window_seconds 必须在 1 到 120 之间" := by
      intro cfg
      unfold filterStepTime
      rw [hv]
      dsimp only
      rw [if_pos hout]
    have hnotok : exceptIsOk (UpdateFilterConfig stored req) = false := by
      unfold UpdateFilterConfig
      cases hs : req.spatialIoUThreshold with
      | none => rw [key stored]; rfl
      | some w =>
        dsimp only
        split_ifs with hw
        · rfl
        · rw [key _]; rfl
    refine ⟨hnotok, ?_⟩
    unfold filterStoredAfter
    cases hres : UpdateFilterConfig stored req with
    | ok c =>
      rw [hres] at hnotok
      simp [exceptIsOk] at hnotok
    | error e => rfl
  · intro v hv hout
    have herr : UpdateAIConfig storedAI reqAI =
        Except.error "confidence_threshold 必须在 0.0 到 1.0 之间" := by
      unfold UpdateAIConfig
      rw [hv]
      dsimp only
      rw [if_pos hout]
    exact ⟨herr, by unfold aiStoredAfter; rw [herr]⟩
  · intro c v hok hv
    unfold UpdateFilterConfig at hok
    rw [hv] at hok
    dsimp only at hok
    split_ifs at hok with hr
    have := filterStepTime_spatial _ req c hok
    rw [this]

/-- Witness for C10: spatial_iou_threshold = 1.5 is rejected with an
error and the default filter section stays untouched. -/
theorem config_update_validation_witness :
    UpdateFilterConfig defaultFilterConfig
      { spatialIoUThreshold := some (3/2), timeWindowSeconds := none,
        enableAlertPush := none, autoSaveSample := none } =
      Except.error "spatial_iou_threshold 必须在 0.0 到 1.0 之间" ∧
    filterStoredAfter defaultFilterConfig
      { spatialIoUThreshold := some (3/2), timeWindowSeconds := none,
        enableAlertPush := none, autoSaveSample := none } =
      defaultFilterConfig :=
  (config_update_validation defaultFilterConfig defaultAIConfig
    { spatialIoUThreshold := some (3/2), timeWindowSeconds := none,
      enableAlertPush := none, autoSaveSample := none }
    { confidenceThreshold := none, entropyThreshold := none,
      nmsIoUThreshold := none, inputSize := none }).1
    (3/2) rfl (by norm_num)

end ADS
